import Mathlib

/-!
Verification of the equirec2perspec projection pipeline.

The definitions below are a shallow embedding, over the real numbers, of the
geometric core found in `src/equirec2perspec/Equirec2Perspec.py` and
`src/equirec2perspec/perspective_helpers.py`, together with executable models
of the parameter / image-shape validation and of the CLI's interpolation
selector (`src/equirec2perspec/cli.py`).  NumPy arrays of per-pixel values are
modelled per element (every array operation in the source is an elementwise
map), machine floats are modelled as real numbers, and the validated
parameters (compared against integer bounds in Python) are modelled as
rationals / integers so the checks stay decidable.
-/

open Real Matrix

noncomputable section

/-- `np.radians d` — degrees to radians, `d * π / 180`. -/
def radians (d : ℝ) : ℝ := d * (π / 180)

/-- Euclidean norm of a 3-vector, `np.linalg.norm(xyz, axis=-1)` applied to
one vector of the field. -/
def norm3 (v : Fin 3 → ℝ) : ℝ := Real.sqrt (v 0 ^ 2 + v 1 ^ 2 + v 2 ^ 2)

/-- `np.arctan2 y x` — the angle of the point `(x, y)` in `[-π, π]`, with the
standard branch choices (and `atan2 0 0 = 0`, as NumPy returns for `+0, +0`). -/
def atan2 (y x : ℝ) : ℝ :=
  if 0 < x then arctan (y / x)
  else if x < 0 then
    (if 0 ≤ y then arctan (y / x) + π else arctan (y / x) - π)
  else
    (if 0 < y then π / 2 else if y < 0 then -(π / 2) else 0)

/-- `xyz2lonlat` from `Equirec2Perspec.py`, acting on one vector of the field:
divide by the Euclidean norm, then `lon = arctan2(x, z)`, `lat = arcsin(y)`. -/
def xyz2lonlat (v : Fin 3 → ℝ) : ℝ × ℝ :=
  (atan2 (v 0 / norm3 v) (v 2 / norm3 v), arcsin (v 1 / norm3 v))

/-- `lonlat2XY` from `Equirec2Perspec.py`, acting on one `(lon, lat)` pair.
`shape` is the source image's `(height, width, channels)` triple. -/
def lonlat2XY (lonlat : ℝ × ℝ) (shape : ℕ × ℕ × ℕ) : ℝ × ℝ :=
  ((lonlat.1 / (2 * π) + 0.5) * ((shape.2.1 : ℝ) - 1),
   (lonlat.2 / π + 0.5) * ((shape.1 : ℝ) - 1))

/-- Skew-symmetric cross-product matrix of a 3-vector. -/
def crossMat (a : Fin 3 → ℝ) : Matrix (Fin 3) (Fin 3) ℝ :=
  !![0, -a 2, a 1; a 2, 0, -a 0; -a 1, a 0, 0]

/-- Outer product `a aᵀ` of a 3-vector with itself. -/
def outerMat (a : Fin 3 → ℝ) : Matrix (Fin 3) (Fin 3) ℝ :=
  !![a 0 * a 0, a 0 * a 1, a 0 * a 2;
     a 1 * a 0, a 1 * a 1, a 1 * a 2;
     a 2 * a 0, a 2 * a 1, a 2 * a 2]

/-- Rotation about the unit axis `a` by angle `θ` (Rodrigues' rotation
formula, `cos θ · I + (1 - cos θ) · a aᵀ + sin θ · [a]ₓ`, here written out
entry by entry; `axisAngleRot_formula` below certifies the two forms agree).
This is the spec's "axis vector + angle → 3×3 matrix" primitive. -/
def axisAngleRot (a : Fin 3 → ℝ) (θ : ℝ) : Matrix (Fin 3) (Fin 3) ℝ :=
  !![Real.cos θ + (1 - Real.cos θ) * (a 0 * a 0),
     (1 - Real.cos θ) * (a 0 * a 1) - Real.sin θ * a 2,
     (1 - Real.cos θ) * (a 0 * a 2) + Real.sin θ * a 1;
     (1 - Real.cos θ) * (a 1 * a 0) + Real.sin θ * a 2,
     Real.cos θ + (1 - Real.cos θ) * (a 1 * a 1),
     (1 - Real.cos θ) * (a 1 * a 2) - Real.sin θ * a 0;
     (1 - Real.cos θ) * (a 2 * a 0) - Real.sin θ * a 1,
     (1 - Real.cos θ) * (a 2 * a 1) + Real.sin θ * a 0,
     Real.cos θ + (1 - Real.cos θ) * (a 2 * a 2)]

/-- `cv2.Rodrigues` on a rotation vector `r` (documented behaviour of the
external OpenCV routine): the identity for `r = 0`, otherwise the rotation
about the unit axis `r / ‖r‖` by the angle `‖r‖`. -/
def rodrigues (r : Fin 3 → ℝ) : Matrix (Fin 3) (Fin 3) ℝ :=
  if norm3 r = 0 then 1 else axisAngleRot (fun i => r i / norm3 r) (norm3 r)

/-- `y_axis = np.array([0.0, 1.0, 0.0])`. -/
def yAxis : Fin 3 → ℝ := ![0, 1, 0]

/-- `x_axis = np.array([1.0, 0.0, 0.0])`. -/
def xAxis : Fin 3 → ℝ := ![1, 0, 0]

/-- `compute_rotation_matrices` from `perspective_helpers.py` (the same code
appears inline in `Equirectangular.get_perspective`):
`R1 = Rodrigues(y_axis * radians THETA)`,
`R2 = Rodrigues((R1 · x_axis) * radians PHI)`, result `R2 @ R1`. -/
def compute_rotation_matrices (THETA PHI : ℝ) : Matrix (Fin 3) (Fin 3) ℝ :=
  let R1 := rodrigues (radians THETA • yAxis)
  let R2 := rodrigues (radians PHI • R1.mulVec xAxis)
  R2 * R1

/-- `build_camera_matrix` from `perspective_helpers.py` (the same code appears
inline in `Equirectangular.get_perspective`):
`f = 0.5 * width * 1 / tan(0.5 * FOV / 180 * π)`, `cx = (width-1)/2`,
`cy = (height-1)/2`, `K = [[f,0,cx],[0,f,cy],[0,0,1]]`, and
`np.linalg.inv K` modelled as the matrix inverse. -/
def build_camera_matrix (FOV : ℝ) (width height : ℕ) :
    Matrix (Fin 3) (Fin 3) ℝ × Matrix (Fin 3) (Fin 3) ℝ :=
  let f := 0.5 * (width : ℝ) * 1 / Real.tan (0.5 * FOV / 180 * π)
  let cx := ((width : ℝ) - 1) / 2
  let cy := ((height : ℝ) - 1) / 2
  let K : Matrix (Fin 3) (Fin 3) ℝ := !![f, 0, cx; 0, f, cy; 0, 0, 1]
  (K, K⁻¹)

end

/-- Validation errors raised by `Equirectangular.get_perspective` /
`validate_perspective_params`, carrying the offending value. -/
inductive PerspectiveError where
  | fovRange (got : ℚ)
  | thetaRange (got : ℚ)
  | phiRange (got : ℚ)
  | heightRange (got : ℤ)
  | widthRange (got : ℤ)
deriving DecidableEq, Repr

/-- The `ValueError` message attached to each validation error, exactly as
formatted by the source's f-strings. -/
def PerspectiveError.message : PerspectiveError → String
  | .fovRange got => "FOV must be between 1 and 180 degrees, got: " ++ toString got
  | .thetaRange got => "THETA must be between -180 and 180 degrees, got: " ++ toString got
  | .phiRange got => "PHI must be between -90 and 90 degrees, got: " ++ toString got
  | .heightRange got => "height must be greater than 0, got: " ++ toString got
  | .widthRange got => "width must be greater than 0, got: " ++ toString got

/-- `validate_perspective_params` from `perspective_helpers.py` — the same
five checks, in the same order, that open `Equirectangular.get_perspective`. -/
def validate_perspective_params (FOV THETA PHI : ℚ) (height width : ℤ) :
    Except PerspectiveError Unit :=
  if ¬(1 ≤ FOV ∧ FOV ≤ 180) then .error (.fovRange FOV)
  else if ¬(-180 ≤ THETA ∧ THETA ≤ 180) then .error (.thetaRange THETA)
  else if ¬(-90 ≤ PHI ∧ PHI ≤ 90) then .error (.phiRange PHI)
  else if height ≤ 0 then .error (.heightRange height)
  else if width ≤ 0 then .error (.widthRange width)
  else .ok ()

/-- `cv2.INTER_NEAREST`. -/
def INTER_NEAREST : ℤ := 0
/-- `cv2.INTER_LINEAR`. -/
def INTER_LINEAR : ℤ := 1
/-- `cv2.INTER_CUBIC`. -/
def INTER_CUBIC : ℤ := 2
/-- `cv2.INTER_LANCZOS4`. -/
def INTER_LANCZOS4 : ℤ := 4
/-- `cv2.BORDER_WRAP`. -/
def BORDER_WRAP : ℤ := 3

/-- The arguments `Equirectangular.get_perspective` hands to `cv2.remap`
beside the source image and the coordinate field: the interpolation kernel
selector and the border mode. -/
structure RemapArgs where
  kernel : ℤ
  borderMode : ℤ
deriving DecidableEq, Repr

/-- The `cv2.remap(self._img, XY[...,0], XY[...,1], interpolation,
borderMode=cv2.BORDER_WRAP)` call in `get_perspective`: the border mode is the
constant `BORDER_WRAP`, whatever kernel was requested. -/
def get_perspective_remap_args (interp : ℤ) : RemapArgs :=
  { kernel := interp, borderMode := BORDER_WRAP }

/-- `_get_interpolation_method` from `cli.py`: the four supported kernel
names, mapped to their OpenCV constants; anything else is an error. -/
def _get_interpolation_method (method : String) : Except String ℤ :=
  if method = "nearest" then .ok INTER_NEAREST
  else if method = "bilinear" then .ok INTER_LINEAR
  else if method = "bicubic" then .ok INTER_CUBIC
  else if method = "lanczos" then .ok INTER_LANCZOS4
  else .error ("Unsupported interpolation method: " ++ method)

/-- Modelled from the spec: the sampling-tap resolution of `cv2.remap`'s
border policy (OpenCV's own code is not part of this repository).  Under
`BORDER_WRAP` an out-of-range integer tap coordinate is wrapped around the
corresponding source dimension — the same rule on both axes, independent of
the interpolation kernel. -/
def resolveTap (borderMode : ℤ) (srcWidth srcHeight : ℕ) (ix iy : ℤ) : ℤ × ℤ :=
  if borderMode = BORDER_WRAP then (ix % (srcWidth : ℤ), iy % (srcHeight : ℤ))
  else (ix, iy)

/-- The shape validation in `Equirectangular.__init__`: reject unless the
decoded array's shape has exactly 3 entries and its third entry (the channel
count) is 3; then record `(height, width)`. -/
def equirectangular_init_check (shape : List ℕ) : Except String (ℕ × ℕ) :=
  if shape.length ≠ 3 ∨ shape.getD 2 0 ≠ 3 then
    .error ("Image must have 3 color channels (RGB), got shape: " ++ toString shape)
  else .ok (shape.getD 0 0, shape.getD 1 0)

/-- `Equirectangular.get_perspective` up to the data handed to `cv2.remap`:
validate the five parameters first; only on success build the camera matrix,
the rotation, and the per-pixel mapping `(x, y) ↦ XY` obtained by pushing the
homogeneous pixel `(x, y, 1)` through `K⁻¹`, `R`, `xyz2lonlat` and
`lonlat2XY`, and call `cv2.remap` with the requested kernel and
`borderMode=cv2.BORDER_WRAP`. -/
noncomputable def get_perspective (FOV THETA PHI : ℚ) (height width : ℤ)
    (interp : ℤ) (srcShape : ℕ × ℕ × ℕ) :
    Except PerspectiveError ((ℕ → ℕ → ℝ × ℝ) × RemapArgs) :=
  (validate_perspective_params FOV THETA PHI height width).map fun _ =>
    let Kinv := (build_camera_matrix (FOV : ℝ) width.toNat height.toNat).2
    let R := compute_rotation_matrices (THETA : ℝ) (PHI : ℝ)
    (fun x y =>
      lonlat2XY (xyz2lonlat (R.mulVec (Kinv.mulVec ![(x : ℝ), (y : ℝ), 1])))
        srcShape,
     get_perspective_remap_args interp)

/-! ## General lemmas about the embedded definitions -/

/-- The entrywise definition of `axisAngleRot` agrees with Rodrigues' rotation
formula `cos θ · I + (1 - cos θ) · a aᵀ + sin θ · [a]ₓ`. -/
theorem axisAngleRot_formula (a : Fin 3 → ℝ) (θ : ℝ) :
    axisAngleRot a θ =
      Real.cos θ • (1 : Matrix (Fin 3) (Fin 3) ℝ)
        + (1 - Real.cos θ) • outerMat a + Real.sin θ • crossMat a := by
  ext i j
  fin_cases i <;> fin_cases j <;>
    simp [axisAngleRot, outerMat, crossMat, Matrix.one_apply, Matrix.vecHead,
      Matrix.vecTail, -mul_eq_mul_left_iff, -mul_eq_mul_right_iff,
      -add_right_inj, -add_left_inj, -sub_left_inj, -sub_right_inj] <;>
    ring_nf

/-- Rotating by the zero angle is the identity. -/
theorem axisAngleRot_zero (a : Fin 3 → ℝ) : axisAngleRot a 0 = 1 := by
  ext i j
  fin_cases i <;> fin_cases j <;>
    simp [axisAngleRot, Matrix.one_apply, Matrix.vecHead, Matrix.vecTail,
      -mul_eq_mul_left_iff, -mul_eq_mul_right_iff,
      -add_right_inj, -add_left_inj, -sub_left_inj, -sub_right_inj]

/-- Negating both the axis and the angle gives the same rotation. -/
theorem axisAngleRot_neg_neg (a : Fin 3 → ℝ) (θ : ℝ) :
    axisAngleRot (fun i => -a i) (-θ) = axisAngleRot a θ := by
  ext i j
  fin_cases i <;> fin_cases j <;>
    simp [axisAngleRot, Real.cos_neg, Real.sin_neg,
      -mul_eq_mul_left_iff, -mul_eq_mul_right_iff, -neg_inj,
      -add_right_inj, -add_left_inj, -sub_left_inj, -sub_right_inj]

/-- The transpose of an axis-angle rotation is the rotation by the opposite
angle. -/
theorem axisAngleRot_transpose (a : Fin 3 → ℝ) (θ : ℝ) :
    (axisAngleRot a θ)ᵀ = axisAngleRot a (-θ) := by
  ext i j
  fin_cases i <;> fin_cases j <;>
    simp [axisAngleRot, Real.cos_neg, Real.sin_neg, Matrix.transpose_apply,
      -mul_eq_mul_left_iff, -mul_eq_mul_right_iff, -neg_inj,
      -add_right_inj, -add_left_inj, -sub_left_inj, -sub_right_inj] <;>
    ring

set_option maxHeartbeats 2000000 in
/-- Two rotations about the same unit axis compose by adding the angles. -/
theorem axisAngleRot_mul (a : Fin 3 → ℝ) (ha : a 0 ^ 2 + a 1 ^ 2 + a 2 ^ 2 = 1)
    (α β : ℝ) :
    axisAngleRot a α * axisAngleRot a β = axisAngleRot a (α + β) := by
  ext i j
  fin_cases i <;> fin_cases j <;>
    rw [Matrix.mul_apply] <;>
    simp [axisAngleRot, Fin.sum_univ_three, Real.cos_add, Real.sin_add,
      -mul_eq_mul_left_iff, -mul_eq_mul_right_iff,
      -add_right_inj, -add_left_inj, -sub_left_inj, -sub_right_inj]
  · linear_combination
      ((1 - Real.cos α) * (1 - Real.cos β) * (a 0 * a 0) - Real.sin α * Real.sin β) * ha
  · linear_combination ((1 - Real.cos α) * (1 - Real.cos β) * (a 0 * a 1)) * ha
  · linear_combination ((1 - Real.cos α) * (1 - Real.cos β) * (a 0 * a 2)) * ha
  · linear_combination ((1 - Real.cos α) * (1 - Real.cos β) * (a 0 * a 1)) * ha
  · linear_combination
      ((1 - Real.cos α) * (1 - Real.cos β) * (a 1 * a 1) - Real.sin α * Real.sin β) * ha
  · linear_combination ((1 - Real.cos α) * (1 - Real.cos β) * (a 1 * a 2)) * ha
  · linear_combination ((1 - Real.cos α) * (1 - Real.cos β) * (a 0 * a 2)) * ha
  · linear_combination ((1 - Real.cos α) * (1 - Real.cos β) * (a 1 * a 2)) * ha
  · linear_combination
      ((1 - Real.cos α) * (1 - Real.cos β) * (a 2 * a 2) - Real.sin α * Real.sin β) * ha

/-- An axis-angle rotation about a unit axis times its own transpose is the
identity. -/
theorem axisAngleRot_mul_transpose (a : Fin 3 → ℝ)
    (ha : a 0 ^ 2 + a 1 ^ 2 + a 2 ^ 2 = 1) (θ : ℝ) :
    axisAngleRot a θ * (axisAngleRot a θ)ᵀ = 1 := by
  rw [axisAngleRot_transpose, axisAngleRot_mul a ha, ← sub_eq_add_neg, sub_self,
    axisAngleRot_zero]

/-- An axis-angle rotation about a unit axis has determinant `1`. -/
theorem det_axisAngleRot (a : Fin 3 → ℝ)
    (ha : a 0 ^ 2 + a 1 ^ 2 + a 2 ^ 2 = 1) (θ : ℝ) :
    (axisAngleRot a θ).det = 1 := by
  have hhalf : axisAngleRot a θ = axisAngleRot a (θ / 2) * axisAngleRot a (θ / 2) := by
    rw [axisAngleRot_mul a ha, add_halves]
  have hsq : (axisAngleRot a θ).det * (axisAngleRot a θ).det = 1 := by
    have h1 := congrArg Matrix.det (axisAngleRot_mul_transpose a ha θ)
    rwa [Matrix.det_mul, Matrix.det_transpose, Matrix.det_one] at h1
  have hnn : 0 ≤ (axisAngleRot a θ).det := by
    rw [hhalf, Matrix.det_mul]
    exact mul_self_nonneg _
  rcases mul_self_eq_one_iff.mp hsq with h | h
  · exact h
  · linarith

/-- Norm of a scalar multiple of a unit 3-vector. -/
theorem norm3_smul_unit (a : Fin 3 → ℝ) (ha : a 0 ^ 2 + a 1 ^ 2 + a 2 ^ 2 = 1)
    (α : ℝ) : norm3 (α • a) = |α| := by
  have h : (α * a 0) ^ 2 + (α * a 1) ^ 2 + (α * a 2) ^ 2
      = α ^ 2 * (a 0 ^ 2 + a 1 ^ 2 + a 2 ^ 2) := by ring
  simp only [norm3, Pi.smul_apply, smul_eq_mul]
  rw [h, ha, mul_one, Real.sqrt_sq_eq_abs]

/-- `cv2.Rodrigues` applied to `angle • unit axis` is exactly the axis-angle
rotation about that axis by that angle — for positive, negative and zero
angles. -/
theorem rodrigues_smul_unit (a : Fin 3 → ℝ)
    (ha : a 0 ^ 2 + a 1 ^ 2 + a 2 ^ 2 = 1) (α : ℝ) :
    rodrigues (α • a) = axisAngleRot a α := by
  have hn : norm3 (α • a) = |α| := norm3_smul_unit a ha α
  rcases lt_trichotomy α 0 with hneg | hzero | hpos
  · have hne : ¬norm3 (α • a) = 0 := by
      rw [hn, abs_of_neg hneg]
      linarith
    have habs : |α| = -α := abs_of_neg hneg
    rw [rodrigues, if_neg hne, hn, habs]
    have haxis : (fun i => (α • a) i / -α) = fun i => -a i := by
      funext i
      simp only [Pi.smul_apply, smul_eq_mul]
      rw [div_neg, mul_div_cancel_left₀ _ (ne_of_lt hneg)]
    rw [haxis, axisAngleRot_neg_neg]
  · subst hzero
    have h0 : norm3 ((0 : ℝ) • a) = 0 := by rw [hn, abs_zero]
    rw [rodrigues, if_pos h0, axisAngleRot_zero]
  · have hne : ¬norm3 (α • a) = 0 := by
      rw [hn, abs_of_pos hpos]
      linarith
    have habs : |α| = α := abs_of_pos hpos
    rw [rodrigues, if_neg hne, hn, habs]
    have haxis : (fun i => (α • a) i / α) = a := by
      funext i
      simp only [Pi.smul_apply, smul_eq_mul]
      rw [mul_div_cancel_left₀ _ (ne_of_gt hpos)]
    rw [haxis]

/-- The world Y axis is a unit vector. -/
theorem yAxis_unit : yAxis 0 ^ 2 + yAxis 1 ^ 2 + yAxis 2 ^ 2 = 1 := by
  norm_num [yAxis]

/-- The world X axis is a unit vector. -/
theorem xAxis_unit : xAxis 0 ^ 2 + xAxis 1 ^ 2 + xAxis 2 ^ 2 = 1 := by
  norm_num [xAxis]

/-- The yaw rotation `R1` is the explicit Y-axis rotation matrix, so the
pitch axis `R1 · x̂` is `(cos t, 0, -sin t)`. -/
theorem axisAngleRot_yAxis (t : ℝ) :
    axisAngleRot yAxis t =
      !![Real.cos t, 0, Real.sin t; 0, 1, 0; -Real.sin t, 0, Real.cos t] := by
  ext i j
  fin_cases i <;> fin_cases j <;>
    simp [axisAngleRot, yAxis, -mul_eq_mul_left_iff, -mul_eq_mul_right_iff,
      -add_right_inj, -add_left_inj, -sub_left_inj, -sub_right_inj]

/-- The pitch axis `R1 · x̂` used for the second Rodrigues call. -/
theorem pitch_axis_eq (t : ℝ) :
    (axisAngleRot yAxis t).mulVec xAxis = ![Real.cos t, 0, -Real.sin t] := by
  funext i
  fin_cases i <;>
    simp [axisAngleRot_yAxis, xAxis, Matrix.mulVec, dotProduct, Fin.sum_univ_three]

/-- The pitch axis is a unit vector. -/
theorem pitch_axis_unit (t : ℝ) :
    ((axisAngleRot yAxis t).mulVec xAxis) 0 ^ 2
      + ((axisAngleRot yAxis t).mulVec xAxis) 1 ^ 2
      + ((axisAngleRot yAxis t).mulVec xAxis) 2 ^ 2 = 1 := by
  rw [pitch_axis_eq]
  simp only [Matrix.cons_val_zero, Matrix.cons_val_one, Matrix.head_cons]
  have h := Real.sin_sq_add_cos_sq t
  norm_num

/-- Decomposition of `compute_rotation_matrices`: the first Rodrigues call is
the yaw rotation about the world Y axis, the second the pitch rotation about
the yaw-rotated X axis, and the result is their product. -/
theorem compute_rotation_matrices_eq (THETA PHI : ℝ) :
    compute_rotation_matrices THETA PHI =
      axisAngleRot ((axisAngleRot yAxis (radians THETA)).mulVec xAxis)
          (radians PHI)
        * axisAngleRot yAxis (radians THETA) := by
  have h1 : rodrigues (radians THETA • yAxis) = axisAngleRot yAxis (radians THETA) :=
    rodrigues_smul_unit yAxis yAxis_unit (radians THETA)
  have h2 : rodrigues (radians PHI • (axisAngleRot yAxis (radians THETA)).mulVec xAxis)
      = axisAngleRot ((axisAngleRot yAxis (radians THETA)).mulVec xAxis) (radians PHI) :=
    rodrigues_smul_unit _ (pitch_axis_unit (radians THETA)) (radians PHI)
  simp only [compute_rotation_matrices]
  rw [h1, h2]

/-! ## Claims -/

/-- C1: for every THETA in [-180,180] and PHI in [-90,90], the Orientation
Composer builds `R1` as the rotation about the world Y axis by THETA degrees
(explicitly the Y-rotation matrix), builds `R2` as the rotation about the
axis `R1 · x̂` (the yaw-rotated world X axis) by PHI degrees, and returns
`R = R2 · R1`. -/
theorem c1_orientation_composer (THETA PHI : ℝ)
    (hT : -180 ≤ THETA ∧ THETA ≤ 180) (hP : -90 ≤ PHI ∧ PHI ≤ 90) :
    rodrigues (radians THETA • yAxis) = axisAngleRot yAxis (radians THETA) ∧
    axisAngleRot yAxis (radians THETA) =
      !![Real.cos (radians THETA), 0, Real.sin (radians THETA);
         0, 1, 0;
         -Real.sin (radians THETA), 0, Real.cos (radians THETA)] ∧
    rodrigues (radians PHI • (rodrigues (radians THETA • yAxis)).mulVec xAxis)
      = axisAngleRot ((axisAngleRot yAxis (radians THETA)).mulVec xAxis)
          (radians PHI) ∧
    compute_rotation_matrices THETA PHI =
      axisAngleRot ((axisAngleRot yAxis (radians THETA)).mulVec xAxis)
          (radians PHI)
        * axisAngleRot yAxis (radians THETA) := by
  have h1 : rodrigues (radians THETA • yAxis) = axisAngleRot yAxis (radians THETA) :=
    rodrigues_smul_unit yAxis yAxis_unit (radians THETA)
  refine ⟨h1, axisAngleRot_yAxis (radians THETA), ?_, compute_rotation_matrices_eq THETA PHI⟩
  rw [h1]
  exact rodrigues_smul_unit _ (pitch_axis_unit (radians THETA)) (radians PHI)

/-- Witness for C1 at `THETA = 90`, `PHI = 45`. -/
theorem c1_orientation_composer_witness :
    ((-180 : ℝ) ≤ 90 ∧ (90 : ℝ) ≤ 180) ∧ ((-90 : ℝ) ≤ 45 ∧ (45 : ℝ) ≤ 90) ∧
    (rodrigues (radians 90 • yAxis) = axisAngleRot yAxis (radians 90) ∧
     axisAngleRot yAxis (radians 90) =
       !![Real.cos (radians 90), 0, Real.sin (radians 90);
          0, 1, 0;
          -Real.sin (radians 90), 0, Real.cos (radians 90)] ∧
     rodrigues (radians 45 • (rodrigues (radians 90 • yAxis)).mulVec xAxis)
       = axisAngleRot ((axisAngleRot yAxis (radians 90)).mulVec xAxis)
           (radians 45) ∧
     compute_rotation_matrices 90 45 =
       axisAngleRot ((axisAngleRot yAxis (radians 90)).mulVec xAxis)
           (radians 45)
         * axisAngleRot yAxis (radians 90)) :=
  ⟨⟨by norm_num, by norm_num⟩, ⟨by norm_num, by norm_num⟩,
    c1_orientation_composer 90 45 ⟨by norm_num, by norm_num⟩ ⟨by norm_num, by norm_num⟩⟩

/-- C2: for every THETA in [-180,180] and PHI in [-90,90] the composed
rotation satisfies `R · Rᵀ = 1` and `det R = 1`, and at `THETA = PHI = 0`
it is the identity matrix. -/
theorem c2_rotation_orthonormal (THETA PHI : ℝ)
    (hT : -180 ≤ THETA ∧ THETA ≤ 180) (hP : -90 ≤ PHI ∧ PHI ≤ 90) :
    compute_rotation_matrices THETA PHI * (compute_rotation_matrices THETA PHI)ᵀ = 1 ∧
    (compute_rotation_matrices THETA PHI).det = 1 ∧
    compute_rotation_matrices 0 0 = 1 := by
  have hBB := axisAngleRot_mul_transpose yAxis yAxis_unit (radians THETA)
  have hAA := axisAngleRot_mul_transpose _ (pitch_axis_unit (radians THETA)) (radians PHI)
  have h0 : radians 0 = 0 := by simp [radians]
  refine ⟨?_, ?_, ?_⟩
  · rw [compute_rotation_matrices_eq, Matrix.transpose_mul, Matrix.mul_assoc,
      ← Matrix.mul_assoc (axisAngleRot yAxis (radians THETA)), hBB, Matrix.one_mul, hAA]
  · rw [compute_rotation_matrices_eq, Matrix.det_mul,
      det_axisAngleRot _ (pitch_axis_unit (radians THETA)) (radians PHI),
      det_axisAngleRot yAxis yAxis_unit (radians THETA), one_mul]
  · rw [compute_rotation_matrices_eq 0 0]
    simp [h0, axisAngleRot_zero]

/-- Witness for C2 at `THETA = -120`, `PHI = 30`. -/
theorem c2_rotation_orthonormal_witness :
    ((-180 : ℝ) ≤ -120 ∧ (-120 : ℝ) ≤ 180) ∧ ((-90 : ℝ) ≤ 30 ∧ (30 : ℝ) ≤ 90) ∧
    (compute_rotation_matrices (-120) 30 * (compute_rotation_matrices (-120) 30)ᵀ = 1 ∧
     (compute_rotation_matrices (-120) 30).det = 1 ∧
     compute_rotation_matrices 0 0 = 1) :=
  ⟨⟨by norm_num, by norm_num⟩, ⟨by norm_num, by norm_num⟩,
    c2_rotation_orthonormal (-120) 30 ⟨by norm_num, by norm_num⟩
      ⟨by norm_num, by norm_num⟩⟩

/-- C3 counterexample: at `FOV = 180` (still inside the claimed range
[1,180]) the focal-length formula divides by `tan(π/2)`, which is not a
finite positive number; in the real-valued model the resulting `K` is
singular, so the second component returned by `build_camera_matrix` is not a
matrix inverse of the first. -/
theorem c3_camera_model_counterexample :
    (build_camera_matrix 180 2 2).2 * (build_camera_matrix 180 2 2).1 ≠ 1 := by
  have harg : (0.5 : ℝ) * 180 / 180 * π = π / 2 := by ring
  have hK : (build_camera_matrix 180 2 2).1 = !![0, 0, 0.5; 0, 0, 0.5; 0, 0, 1] := by
    simp only [build_camera_matrix]
    rw [harg, Real.tan_pi_div_two]
    norm_num
  have hdet : (build_camera_matrix 180 2 2).1.det = 0 := by
    rw [hK, Matrix.det_fin_three]
    norm_num
  have hinv : (build_camera_matrix 180 2 2).2 = 0 := by
    show ((build_camera_matrix 180 2 2).1)⁻¹ = 0
    exact Matrix.nonsing_inv_apply_not_isUnit _ (by simp [hdet])
  rw [hinv, Matrix.zero_mul]
  intro hcontra
  have h00 := congrFun (congrFun hcontra 0) 0
  simp [Matrix.one_apply, Matrix.zero_apply] at h00

/-- C3 (amended to `FOV ∈ [1,180)`; at `FOV = 180` exactly, the formula
`f = 0.5·width / tan(0.5·FOV in radians)` divides by `tan(π/2)`, see the
counterexample): the Camera Model Builder computes
`f = 0.5·width / tan(0.5·FOV in radians)`, `cx = (width-1)/2`,
`cy = (height-1)/2`, returns `K = [[f,0,cx],[0,f,cy],[0,0,1]]` together with
its two-sided matrix inverse. -/
theorem c3_camera_model (FOV : ℝ) (width height : ℕ)
    (hF : 1 ≤ FOV ∧ FOV < 180) (hw : 0 < width) (hh : 0 < height) :
    (build_camera_matrix FOV width height).1 =
      !![0.5 * (width : ℝ) / Real.tan (0.5 * radians FOV), 0, ((width : ℝ) - 1) / 2;
         0, 0.5 * (width : ℝ) / Real.tan (0.5 * radians FOV), ((height : ℝ) - 1) / 2;
         0, 0, 1] ∧
    (build_camera_matrix FOV width height).2 * (build_camera_matrix FOV width height).1
      = 1 ∧
    (build_camera_matrix FOV width height).1 * (build_camera_matrix FOV width height).2
      = 1 := by
  have harg : 0.5 * radians FOV = 0.5 * FOV / 180 * π := by rw [radians]; ring
  have hFpos : (0 : ℝ) < FOV := by linarith [hF.1]
  have hangle_pos : 0 < 0.5 * FOV / 180 * π := by
    nlinarith [mul_pos hFpos Real.pi_pos]
  have hangle_lt : 0.5 * FOV / 180 * π < π / 2 := by
    nlinarith [mul_pos (show (0 : ℝ) < 180 - FOV by linarith [hF.2]) Real.pi_pos]
  have htan : 0 < Real.tan (0.5 * FOV / 180 * π) :=
    Real.tan_pos_of_pos_of_lt_pi_div_two hangle_pos hangle_lt
  have hwpos : (0 : ℝ) < (width : ℝ) := by exact_mod_cast hw
  have hf : 0 < 0.5 * (width : ℝ) * 1 / Real.tan (0.5 * FOV / 180 * π) := by
    apply div_pos (by nlinarith) htan
  have hdet : (build_camera_matrix FOV width height).1.det
      = (0.5 * (width : ℝ) * 1 / Real.tan (0.5 * FOV / 180 * π))
        * (0.5 * (width : ℝ) * 1 / Real.tan (0.5 * FOV / 180 * π)) := by
    simp only [build_camera_matrix]
    rw [Matrix.det_fin_three]
    simp only [Matrix.cons_val', Matrix.cons_val_zero, Matrix.cons_val_one,
      Matrix.cons_val_two, Matrix.head_cons, Matrix.head_fin_const, Matrix.empty_val',
      Matrix.cons_val_fin_one, Matrix.of_apply, Matrix.vecHead, Matrix.vecTail,
      Function.comp_apply, Fin.succ_zero_eq_one, Fin.succ_one_eq_two]
    ring
  have hunit : IsUnit (build_camera_matrix FOV width height).1.det := by
    rw [hdet]
    exact isUnit_iff_ne_zero.mpr (ne_of_gt (mul_pos hf hf))
  refine ⟨?_, ?_, ?_⟩
  · simp only [build_camera_matrix]
    rw [harg, mul_one]
  · show ((build_camera_matrix FOV width height).1)⁻¹
        * (build_camera_matrix FOV width height).1 = 1
    exact Matrix.nonsing_inv_mul _ hunit
  · show (build_camera_matrix FOV width height).1
        * ((build_camera_matrix FOV width height).1)⁻¹ = 1
    exact Matrix.mul_nonsing_inv _ hunit

/-- Witness for the amended C3 at `FOV = 90`, `width = 4`, `height = 3`. -/
theorem c3_camera_model_witness :
    ((1 : ℝ) ≤ 90 ∧ (90 : ℝ) < 180) ∧ 0 < 4 ∧ 0 < 3 ∧
    ((build_camera_matrix 90 4 3).1 =
       !![0.5 * ((4 : ℕ) : ℝ) / Real.tan (0.5 * radians 90), 0, (((4 : ℕ) : ℝ) - 1) / 2;
          0, 0.5 * ((4 : ℕ) : ℝ) / Real.tan (0.5 * radians 90), (((3 : ℕ) : ℝ) - 1) / 2;
          0, 0, 1] ∧
     (build_camera_matrix 90 4 3).2 * (build_camera_matrix 90 4 3).1 = 1 ∧
     (build_camera_matrix 90 4 3).1 * (build_camera_matrix 90 4 3).2 = 1) :=
  ⟨⟨by norm_num, by norm_num⟩, by norm_num, by norm_num,
    c3_camera_model 90 4 3 ⟨by norm_num, by norm_num⟩ (by norm_num) (by norm_num)⟩

/-- C4: the Spherical Projector divides each vector by its Euclidean norm and
returns `longitude = atan2(x, z)`, `latitude = asin(y)` of the normalized
components; ray `(1,0,0)` maps to `(π/2, 0)`, ray `(0,1,0)` maps to
`(0, π/2)`, and ray `(0,-1,0)` has latitude `-π/2`. -/
theorem c4_spherical_projector (v : Fin 3 → ℝ) :
    xyz2lonlat v =
      (atan2 (v 0 / norm3 v) (v 2 / norm3 v), arcsin (v 1 / norm3 v)) ∧
    xyz2lonlat ![1, 0, 0] = (π / 2, 0) ∧
    xyz2lonlat ![0, 1, 0] = (0, π / 2) ∧
    (xyz2lonlat ![0, -1, 0]).2 = -(π / 2) := by
  have h100 : norm3 ![1, 0, 0] = 1 := by simp [norm3]
  have h010 : norm3 ![0, 1, 0] = 1 := by simp [norm3]
  have h0m10 : norm3 ![0, -1, 0] = 1 := by simp [norm3]
  refine ⟨rfl, ?_, ?_, ?_⟩
  · rw [xyz2lonlat, Prod.ext_iff, h100]
    constructor
    · norm_num [atan2]
    · norm_num
  · rw [xyz2lonlat, Prod.ext_iff, h010]
    constructor
    · norm_num [atan2]
    · norm_num [Real.arcsin_one]
  · rw [xyz2lonlat, h0m10]
    norm_num [Real.arcsin_neg_one]

/-- C5: the Equirectangular Mapper returns
`X = (lon/(2π) + 0.5)·(srcWidth - 1)` and `Y = (lat/π + 0.5)·(srcHeight - 1)`;
`lonlat = (0,0)` on a 512×1024 image maps to `(511.5, 255.5)`, and on a
360×720 image `(-π, -π/2)` maps to `(0,0)` and `(π, -π/2)` maps to `(719, 0)`. -/
theorem c5_equirectangular_mapper (lon lat : ℝ) (shape : ℕ × ℕ × ℕ) :
    lonlat2XY (lon, lat) shape =
      ((lon / (2 * π) + 0.5) * ((shape.2.1 : ℝ) - 1),
       (lat / π + 0.5) * ((shape.1 : ℝ) - 1)) ∧
    lonlat2XY (0, 0) (512, 1024, 3) = (511.5, 255.5) ∧
    lonlat2XY (-π, -(π / 2)) (360, 720, 3) = (0, 0) ∧
    lonlat2XY (π, -(π / 2)) (360, 720, 3) = (719, 0) := by
  have h1 : -π / (2 * π) = -(1 / 2 : ℝ) := by field_simp; ring
  have h2 : -(π / 2) / π = -(1 / 2 : ℝ) := by field_simp; ring
  have h3 : π / (2 * π) = (1 / 2 : ℝ) := by field_simp; ring
  refine ⟨rfl, ?_, ?_, ?_⟩
  · norm_num [lonlat2XY, Prod.ext_iff]
  · norm_num [lonlat2XY, Prod.ext_iff, h1, h2]
  · norm_num [lonlat2XY, Prod.ext_iff, h2, h3]

/-- C6: each of the four kernel names selects an OpenCV kernel constant, the
`cv2.remap` call issued by `get_perspective` uses the single `BORDER_WRAP`
border mode whatever the kernel, and under `BORDER_WRAP` an out-of-range tap
is wrapped around the source width on the X axis and — by the same rule —
around the source height on the Y axis, landing inside the source grid. -/
theorem c6_resampler_wrap (method : String)
    (hm : method = "nearest" ∨ method = "bilinear" ∨ method = "bicubic" ∨
      method = "lanczos") :
    (∃ k, _get_interpolation_method method = .ok k ∧
      (get_perspective_remap_args k).kernel = k ∧
      (get_perspective_remap_args k).borderMode = BORDER_WRAP) ∧
    (∀ (srcWidth srcHeight : ℕ) (ix iy : ℤ),
      resolveTap BORDER_WRAP srcWidth srcHeight ix iy
        = (ix % (srcWidth : ℤ), iy % (srcHeight : ℤ))) ∧
    (∀ (srcWidth srcHeight : ℕ) (ix iy : ℤ), 0 < srcWidth → 0 < srcHeight →
      0 ≤ (resolveTap BORDER_WRAP srcWidth srcHeight ix iy).1 ∧
      (resolveTap BORDER_WRAP srcWidth srcHeight ix iy).1 < (srcWidth : ℤ) ∧
      0 ≤ (resolveTap BORDER_WRAP srcWidth srcHeight ix iy).2 ∧
      (resolveTap BORDER_WRAP srcWidth srcHeight ix iy).2 < (srcHeight : ℤ)) := by
  refine ⟨?_, ?_, ?_⟩
  · rcases hm with h | h | h | h <;> subst h
    · exact ⟨INTER_NEAREST, rfl, rfl, rfl⟩
    · exact ⟨INTER_LINEAR, rfl, rfl, rfl⟩
    · exact ⟨INTER_CUBIC, rfl, rfl, rfl⟩
    · exact ⟨INTER_LANCZOS4, rfl, rfl, rfl⟩
  · intro srcWidth srcHeight ix iy
    simp [resolveTap]
  · intro srcWidth srcHeight ix iy hw hh
    have hw' : (0 : ℤ) < (srcWidth : ℤ) := by exact_mod_cast hw
    have hh' : (0 : ℤ) < (srcHeight : ℤ) := by exact_mod_cast hh
    simp only [resolveTap, if_pos rfl]
    exact ⟨Int.emod_nonneg ix (ne_of_gt hw'), Int.emod_lt_of_pos ix hw',
      Int.emod_nonneg iy (ne_of_gt hh'), Int.emod_lt_of_pos iy hh'⟩

/-- Witness for C6 at the `"bicubic"` kernel, with a concrete wrapped tap:
`(-5, 7)` on a `4×2` source wraps to `(3, 1)`. -/
theorem c6_resampler_wrap_witness :
    resolveTap BORDER_WRAP 4 2 (-5) 7 = (3, 1) ∧
    ((∃ k, _get_interpolation_method "bicubic" = .ok k ∧
      (get_perspective_remap_args k).kernel = k ∧
      (get_perspective_remap_args k).borderMode = BORDER_WRAP) ∧
    (∀ (srcWidth srcHeight : ℕ) (ix iy : ℤ),
      resolveTap BORDER_WRAP srcWidth srcHeight ix iy
        = (ix % (srcWidth : ℤ), iy % (srcHeight : ℤ))) ∧
    (∀ (srcWidth srcHeight : ℕ) (ix iy : ℤ), 0 < srcWidth → 0 < srcHeight →
      0 ≤ (resolveTap BORDER_WRAP srcWidth srcHeight ix iy).1 ∧
      (resolveTap BORDER_WRAP srcWidth srcHeight ix iy).1 < (srcWidth : ℤ) ∧
      0 ≤ (resolveTap BORDER_WRAP srcWidth srcHeight ix iy).2 ∧
      (resolveTap BORDER_WRAP srcWidth srcHeight ix iy).2 < (srcHeight : ℤ))) :=
  ⟨by decide, c6_resampler_wrap "bicubic" (Or.inr (Or.inr (Or.inl rfl)))⟩

/-- C7: any call of `get_perspective` with an out-of-range parameter is
rejected with a validation error before the projection is computed (the
`Except` short-circuits in front of the geometry); `FOV = 200` produces the
FOV range error whose message contains `"1 and 180"`, and `height = 0`
produces the height range error whose message contains `"greater than 0"`. -/
theorem c7_parameter_validation (FOV THETA PHI : ℚ) (height width interp : ℤ)
    (srcShape : ℕ × ℕ × ℕ)
    (hbad : ¬(1 ≤ FOV ∧ FOV ≤ 180) ∨ ¬(-180 ≤ THETA ∧ THETA ≤ 180) ∨
      ¬(-90 ≤ PHI ∧ PHI ≤ 90) ∨ height ≤ 0 ∨ width ≤ 0) :
    (∃ e : PerspectiveError,
      get_perspective FOV THETA PHI height width interp srcShape = .error e) ∧
    get_perspective 200 0 0 100 100 INTER_CUBIC (512, 1024, 3)
      = .error (.fovRange 200) ∧
    (PerspectiveError.fovRange 200).message
      = "FOV must be between " ++ "1 and 180" ++ " degrees, got: 200" ∧
    get_perspective 60 0 0 0 100 INTER_CUBIC (512, 1024, 3)
      = .error (.heightRange 0) ∧
    (PerspectiveError.heightRange 0).message
      = "height must be " ++ "greater than 0" ++ ", got: 0" := by
  have hval : ∃ e, validate_perspective_params FOV THETA PHI height width
      = .error e := by
    unfold validate_perspective_params
    by_cases hc1 : 1 ≤ FOV ∧ FOV ≤ 180
    · by_cases hc2 : -180 ≤ THETA ∧ THETA ≤ 180
      · by_cases hc3 : -90 ≤ PHI ∧ PHI ≤ 90
        · by_cases hc4 : height ≤ 0
          · exact ⟨_, by rw [if_neg (not_not_intro hc1), if_neg (not_not_intro hc2),
              if_neg (not_not_intro hc3), if_pos hc4]⟩
          · have hc5 : width ≤ 0 := by tauto
            exact ⟨_, by rw [if_neg (not_not_intro hc1), if_neg (not_not_intro hc2),
              if_neg (not_not_intro hc3), if_neg hc4, if_pos hc5]⟩
        · exact ⟨_, by rw [if_neg (not_not_intro hc1), if_neg (not_not_intro hc2),
            if_pos hc3]⟩
      · exact ⟨_, by rw [if_neg (not_not_intro hc1), if_pos hc2]⟩
    · exact ⟨_, by rw [if_pos hc1]⟩
  obtain ⟨e, he⟩ := hval
  refine ⟨⟨e, ?_⟩, ?_, rfl, ?_, rfl⟩
  · rw [get_perspective, he]
    rfl
  · rw [get_perspective, show validate_perspective_params 200 0 0 100 100
      = .error (.fovRange 200) by rfl]
    rfl
  · rw [get_perspective, show validate_perspective_params 60 0 0 0 100
      = .error (.heightRange 0) by rfl]
    rfl

/-- Witness for C7 at `FOV = 200` (the other parameters in range). -/
theorem c7_parameter_validation_witness :
    (¬((1 : ℚ) ≤ 200 ∧ (200 : ℚ) ≤ 180) ∨ ¬((-180 : ℚ) ≤ 0 ∧ (0 : ℚ) ≤ 180) ∨
      ¬((-90 : ℚ) ≤ 0 ∧ (0 : ℚ) ≤ 90) ∨ (100 : ℤ) ≤ 0 ∨ (100 : ℤ) ≤ 0) ∧
    ((∃ e : PerspectiveError,
      get_perspective 200 0 0 100 100 INTER_CUBIC (512, 1024, 3) = .error e) ∧
    get_perspective 200 0 0 100 100 INTER_CUBIC (512, 1024, 3)
      = .error (.fovRange 200) ∧
    (PerspectiveError.fovRange 200).message
      = "FOV must be between " ++ "1 and 180" ++ " degrees, got: 200" ∧
    get_perspective 60 0 0 0 100 INTER_CUBIC (512, 1024, 3)
      = .error (.heightRange 0) ∧
    (PerspectiveError.heightRange 0).message
      = "height must be " ++ "greater than 0" ++ ", got: 0") :=
  ⟨Or.inl (by norm_num),
    c7_parameter_validation 200 0 0 100 100 INTER_CUBIC (512, 1024, 3)
      (Or.inl (by norm_num))⟩

/-- C8 counterexample: a 3-channel source with a zero height dimension
(shape `[0, 100, 3]`) passes the constructor's shape validation — the claim
that a zero dimension fails fast at construction is false on this code, which
only checks the rank and the channel count. -/
theorem c8_init_check_counterexample :
    equirectangular_init_check [0, 100, 3] = .ok (0, 100) ∧
    ¬∃ msg, equirectangular_init_check [0, 100, 3] = .error msg := by
  refine ⟨rfl, ?_⟩
  rintro ⟨msg, hmsg⟩
  rw [show equirectangular_init_check [0, 100, 3] = .ok (0, 100) from rfl] at hmsg
  exact Except.noConfusion hmsg

/-- C8 (amended: the constructor rejects exactly the arrays that are not
3-dimensional or whose channel count differs from 3; zero height/width
dimensions are not validated): `Equirectangular.__init__` raises its
`ValueError` iff the decoded shape fails the channel check. -/
theorem c8_init_validation (shape : List ℕ) :
    (∃ msg, equirectangular_init_check shape = .error msg) ↔
      (shape.length ≠ 3 ∨ shape.getD 2 0 ≠ 3) := by
  unfold equirectangular_init_check
  split_ifs with h
  · simpa using h
  · simpa using h

/-- The embedded `atan2` always lands in `[-π, π]`. -/
theorem atan2_mem_Icc (y x : ℝ) : -π ≤ atan2 y x ∧ atan2 y x ≤ π := by
  have hπ := Real.pi_pos
  have hlt := Real.arctan_lt_pi_div_two (y / x)
  have hgt := Real.neg_pi_div_two_lt_arctan (y / x)
  unfold atan2
  split_ifs with h1 h2 h3 h4 h5
  · exact ⟨by linarith, by linarith⟩
  · have hq : y / x ≤ 0 := div_nonpos_of_nonneg_of_nonpos h3 (le_of_lt h2)
    have harc : arctan (y / x) ≤ 0 := by
      have := Real.arctan_strictMono.monotone hq
      rwa [Real.arctan_zero] at this
    exact ⟨by linarith, by linarith⟩
  · have hq : 0 ≤ y / x :=
      div_nonneg_iff.mpr (Or.inr ⟨by linarith [lt_of_not_le h3], le_of_lt h2⟩)
    have harc : 0 ≤ arctan (y / x) := by
      have := Real.arctan_strictMono.monotone hq
      rwa [Real.arctan_zero] at this
    exact ⟨by linarith, by linarith⟩
  · exact ⟨by linarith, by linarith⟩
  · exact ⟨by linarith, by linarith⟩
  · exact ⟨by linarith, by linarith⟩

/-- C10: for every longitude in `[-π, π]` and latitude in `[-π/2, π/2]` — and
the Spherical Projector only produces values in those ranges — the mapped
sample centers `(X, Y)` stay inside `[0, srcWidth-1] × [0, srcHeight-1]`
whenever the source grid is nonempty. -/
theorem c10_mapped_coords_in_grid (lon lat : ℝ) (shape : ℕ × ℕ × ℕ)
    (hlon : -π ≤ lon ∧ lon ≤ π) (hlat : -(π / 2) ≤ lat ∧ lat ≤ π / 2)
    (hw : 1 ≤ shape.2.1) (hh : 1 ≤ shape.1) :
    (0 ≤ (lonlat2XY (lon, lat) shape).1 ∧
      (lonlat2XY (lon, lat) shape).1 ≤ (shape.2.1 : ℝ) - 1) ∧
    (0 ≤ (lonlat2XY (lon, lat) shape).2 ∧
      (lonlat2XY (lon, lat) shape).2 ≤ (shape.1 : ℝ) - 1) ∧
    (∀ v : Fin 3 → ℝ,
      (-π ≤ (xyz2lonlat v).1 ∧ (xyz2lonlat v).1 ≤ π) ∧
      (-(π / 2) ≤ (xyz2lonlat v).2 ∧ (xyz2lonlat v).2 ≤ π / 2)) := by
  have hπ := Real.pi_pos
  have hw1 : (1 : ℝ) ≤ (shape.2.1 : ℝ) := by exact_mod_cast hw
  have hh1 : (1 : ℝ) ≤ (shape.1 : ℝ) := by exact_mod_cast hh
  have hfacX : lon / (2 * π) + 0.5 = (lon + π) / (2 * π) := by
    field_simp
    ring
  have hfacY : lat / π + 0.5 = (lat + π / 2) / π := by
    field_simp
    ring
  have hX0 : 0 ≤ (lon + π) / (2 * π) :=
    div_nonneg (by linarith [hlon.1]) (by linarith)
  have hX1 : (lon + π) / (2 * π) ≤ 1 := by
    rw [div_le_one (by linarith)]
    linarith [hlon.2]
  have hY0 : 0 ≤ (lat + π / 2) / π :=
    div_nonneg (by linarith [hlat.1]) (by linarith)
  have hY1 : (lat + π / 2) / π ≤ 1 := by
    rw [div_le_one (by linarith)]
    linarith [hlat.2]
  refine ⟨⟨?_, ?_⟩, ⟨?_, ?_⟩, ?_⟩
  · show 0 ≤ (lon / (2 * π) + 0.5) * ((shape.2.1 : ℝ) - 1)
    rw [hfacX]
    exact mul_nonneg hX0 (by linarith)
  · show (lon / (2 * π) + 0.5) * ((shape.2.1 : ℝ) - 1) ≤ (shape.2.1 : ℝ) - 1
    rw [hfacX]
    exact mul_le_of_le_one_left (by linarith) hX1
  · show 0 ≤ (lat / π + 0.5) * ((shape.1 : ℝ) - 1)
    rw [hfacY]
    exact mul_nonneg hY0 (by linarith)
  · show (lat / π + 0.5) * ((shape.1 : ℝ) - 1) ≤ (shape.1 : ℝ) - 1
    rw [hfacY]
    exact mul_le_of_le_one_left (by linarith) hY1
  · intro v
    refine ⟨atan2_mem_Icc _ _, ?_, ?_⟩
    · exact Real.neg_pi_div_two_le_arcsin _
    · exact Real.arcsin_le_pi_div_two _

/-- Witness for C10 at `lon = π/2`, `lat = π/4` on a `(360, 720, 3)` source. -/
theorem c10_mapped_coords_in_grid_witness :
    (-π ≤ π / 2 ∧ π / 2 ≤ π) ∧ (-(π / 2) ≤ π / 4 ∧ π / 4 ≤ π / 2) ∧
    (1 : ℕ) ≤ 720 ∧ (1 : ℕ) ≤ 360 ∧
    ((0 ≤ (lonlat2XY (π / 2, π / 4) (360, 720, 3)).1 ∧
      (lonlat2XY (π / 2, π / 4) (360, 720, 3)).1 ≤ ((720 : ℕ) : ℝ) - 1) ∧
     (0 ≤ (lonlat2XY (π / 2, π / 4) (360, 720, 3)).2 ∧
      (lonlat2XY (π / 2, π / 4) (360, 720, 3)).2 ≤ ((360 : ℕ) : ℝ) - 1) ∧
     (∀ v : Fin 3 → ℝ,
       (-π ≤ (xyz2lonlat v).1 ∧ (xyz2lonlat v).1 ≤ π) ∧
       (-(π / 2) ≤ (xyz2lonlat v).2 ∧ (xyz2lonlat v).2 ≤ π / 2))) :=
  ⟨⟨by linarith [Real.pi_pos], by linarith [Real.pi_pos]⟩,
   ⟨by linarith [Real.pi_pos], by linarith [Real.pi_pos]⟩,
   by norm_num, by norm_num,
   c10_mapped_coords_in_grid (π / 2) (π / 4) (360, 720, 3)
     ⟨by linarith [Real.pi_pos], by linarith [Real.pi_pos]⟩
     ⟨by linarith [Real.pi_pos], by linarith [Real.pi_pos]⟩
     (by norm_num) (by norm_num)⟩
